import Mathlib

/-!
Shallow embedding of the Splunk MCP server core (splunk_mcp_server.py):
the tool dispatcher (call_tool), the per-tool query builders, and the
asynchronous search-job orchestration in search_splunk.

Modelling choices:
* Python runtime values that flow through the argument map are modelled by
  the type Val (strings and integers); a Python value that may be the None
  object is modelled by Option Val, with none standing for None.
* The external Splunk backend (splunklib client) is an oracle, the
  structure Backend: each interaction point (jobs.create, job.is_done,
  job.results().read(), and the behaviour of json.loads on the fetched
  raw payload) is a function that either returns a value or raises an
  exception, modelled as Except String with the string standing for
  str(e) of the raised exception.
* The poll loop while not job.is_done(): await asyncio.sleep(0.5) is given
  fuel; exhausting the fuel yields the outcome stillRunning, which models
  that after that many polls the loop has not yet exited.
* Every backend interaction is recorded in a trace of Event values, so
  that claims of the form no job is submitted are statable.
-/

/-- A Python runtime value that is either a str or an int. -/
inductive Val
  | s (v : String)
  | i (v : Int)
deriving DecidableEq, Repr

/-- Python str() of a Val (used by f-string interpolation). -/
def Val.pyStr : Val → String
  | .s v => v
  | .i v => toString v

/-- Python str() of a value that may be None: str(None) is the text None. -/
def pyStrO : Option Val → String
  | none => "None"
  | some v => v.pyStr

/-- Python equality test of a runtime value against a string literal:
an int value is never equal to a str. -/
def Val.eqStr : Val → String → Bool
  | .s v, t => v == t
  | .i _, _ => false

/-- One result row of the parsed backend payload: a JSON object,
modelled as an association list. -/
abbrev Row := List (String × String)

/-- The payload produced by json.loads on the raw result stream.
The field results is none when the key results is absent from the
parsed object, and some rs when it maps to the row list rs (a row list
that is empty is falsy in Python). -/
structure ParsedPayload where
  results : Option (List Row)
deriving DecidableEq, Repr

/-- The fixed polling interval of the wait loop, asyncio.sleep(0.5). -/
def pollInterval : ℚ := 1/2

/-- One observable interaction with the external backend. -/
inductive Event
  | connectAttempt
  | jobCreate (query : Option Val) (earliest_time latest_time : Val)
  | doneCheck (k : Nat)
  | sleep (d : ℚ)
  | fetch
deriving DecidableEq, Repr

/-- Oracle for the external Splunk backend and for json.loads on the
payload it serves.  An .error e result models the call raising an
exception whose str() is e. -/
structure Backend where
  createJob : Option Val → Val → Val → Except String Unit
  isDone : Nat → Except String Bool
  fetchRaw : Except String String
  parseJson : String → Except String ParsedPayload

/-- The JSON text search_splunk returns, kept structured: a populated
envelope, the no-results object, or the error object from the except
branch. -/
inductive SplunkOut
  | envelope (query : Option Val) (event_count : Nat) (time_range : String)
      (results : List Row)
  | noResults (query : Option Val) (event_count : Nat) (message : String)
  | errorPayload (e : String)
deriving DecidableEq, Repr

/-- Lines 298 to 311 of search_splunk: shape the parsed payload into the
returned JSON object.  The envelope branch is taken when the key results
is present and its row list is truthy (non-empty); event_count is the
length of the full parsed row list and results is truncated to the
first 20 rows. -/
def formatResults (query : Option Val) (earliest_time latest_time : Val)
    (pp : ParsedPayload) : SplunkOut :=
  match pp.results with
  | some rs =>
    if rs.isEmpty then
      .noResults query 0 "No results found"
    else
      .envelope query rs.length
        (earliest_time.pyStr ++ " to " ++ latest_time.pyStr) (rs.take 20)
  | none => .noResults query 0 "No results found"

/-- Outcome of one pass of the wait loop under a given amount of fuel. -/
inductive PollRes
  | done (k : Nat)
  | raised (e : String)
  | stillRunning
deriving DecidableEq, Repr

/-- The wait loop of search_splunk: check job.is_done(); if not done,
await asyncio.sleep(0.5) and check again.  k is the index of the next
check; the trace records every check and sleep. -/
def pollLoop (b : Backend) : Nat → Nat → PollRes × List Event
  | 0, _ => (.stillRunning, [])
  | fuel + 1, k =>
    match b.isDone k with
    | .error e => (.raised e, [.doneCheck k])
    | .ok true => (.done k, [.doneCheck k])
    | .ok false =>
      let p := pollLoop b fuel (k + 1)
      (p.1, .doneCheck k :: .sleep pollInterval :: p.2)

/-- Outcome of the try block of search_splunk (lines 280 to 311). -/
inductive BodyRes
  | raised (e : String)
  | stillRunning
  | value (out : SplunkOut)
deriving DecidableEq, Repr

/-- The try block of search_splunk: submit the job (jobs.create with the
earliest_time/latest_time kwargs), drive the wait loop, fetch the raw
result stream, parse it with json.loads, and format the payload.  Any
.error of a backend step becomes .raised, the propagating exception. -/
def searchSplunkBody (b : Backend) (query : Option Val)
    (earliest_time latest_time : Val) (fuel : Nat) : BodyRes × List Event :=
  match b.createJob query earliest_time latest_time with
  | .error e => (.raised e, [.jobCreate query earliest_time latest_time])
  | .ok _ =>
    match pollLoop b fuel 0 with
    | (.raised e, tr) =>
      (.raised e, .jobCreate query earliest_time latest_time :: tr)
    | (.stillRunning, tr) =>
      (.stillRunning, .jobCreate query earliest_time latest_time :: tr)
    | (.done _, tr) =>
      match b.fetchRaw with
      | .error e =>
        (.raised e,
          .jobCreate query earliest_time latest_time :: (tr ++ [.fetch]))
      | .ok raw =>
        match b.parseJson raw with
        | .error e =>
          (.raised e,
            .jobCreate query earliest_time latest_time :: (tr ++ [.fetch]))
        | .ok pp =>
          (.value (formatResults query earliest_time latest_time pp),
            .jobCreate query earliest_time latest_time :: (tr ++ [.fetch]))

/-- Result of search_splunk as seen by its caller: a returned string
(structured) or, when the fuel runs out, the still-looping marker. -/
inductive SearchRes
  | returned (out : SplunkOut)
  | stillRunning
deriving DecidableEq, Repr

/-- search_splunk (lines 278 to 314): the try block wrapped in
except Exception as e: return json.dumps with the error key set to
str(e).  The function itself never raises. -/
def search_splunk (b : Backend) (query : Option Val)
    (earliest_time latest_time : Val) (fuel : Nat) : SearchRes × List Event :=
  match searchSplunkBody b query earliest_time latest_time fuel with
  | (.raised e, tr) => (.returned (.errorPayload e), tr)
  | (.stillRunning, tr) => (.stillRunning, tr)
  | (.value out, tr) => (.returned out, tr)

/-- get_security_alerts, lines 318 to 326: the compiled query text.
severity_filter is empty when severity equals the string all, otherwise
an equality filter interpolating str(severity); limit is interpolated
with str(). -/
def get_security_alerts_query (severity lim : Val) : String :=
  let severity_filter :=
    if severity.eqStr "all" then ""
    else "severity=\"" ++ severity.pyStr ++ "\""
  "\n        search index=* sourcetype=* " ++ severity_filter ++
  "\n        | where isnotnull(severity) OR isnotnull(signature) OR isnotnull(alert_type)" ++
  "\n        | head " ++ lim.pyStr ++
  "\n        | table _time, src_ip, dest_ip, user, severity, signature, category, action, message" ++
  "\n        | sort - _time" ++
  "\n        "

/-- investigate_ip, lines 332 to 336: the compiled query text, with
str(ip_address) interpolated (the text None when ip_address is None). -/
def investigate_ip_query (ip_address : Option Val) : String :=
  "\n        search index=* (" ++ pyStrO ip_address ++ ")" ++
  "\n        | stats count by sourcetype, action, dest_ip, dest_port, signature" ++
  "\n        | sort - count" ++
  "\n        "

/-- investigate_user, lines 342 to 346: the compiled query text, with
str(username) interpolated twice. -/
def investigate_user_query (username : Option Val) : String :=
  "\n        search index=* user=\"" ++ pyStrO username ++ "\" OR src_user=\"" ++
    pyStrO username ++ "\"" ++
  "\n        | stats count by action, src_ip, dest, sourcetype, status" ++
  "\n        | sort - count" ++
  "\n        "

/-- get_threat_intel, lines 352 to 357: the compiled query text, a plain
(non-interpolated) string constant. -/
def get_threat_intel_query : String :=
  "\n        search index=* (threat OR malware OR suspicious OR ioc)" ++
  "\n        | stats count by src_ip, dest_ip, signature, category, severity" ++
  "\n        | where count > 1" ++
  "\n        | sort - count" ++
  "\n        "

/-- get_security_metrics, first branch (lines 364 to 368): the
severity-count aggregation query. -/
def metricsAlertsQuery : String :=
  "\n            search index=* severity=*" ++
  "\n            | stats count by severity" ++
  "\n            | eval total=sum(count)" ++
  "\n            "

/-- get_security_metrics, second branch (lines 370 to 373): the
1-hour-bucketed count-by-category trend query. -/
def metricsTrendsQuery : String :=
  "\n            search index=* (threat OR attack OR malware)" ++
  "\n            | timechart span=1h count by category" ++
  "\n            "

/-- get_security_metrics, else branch (lines 375 to 379): the
source-type count fallback query. -/
def metricsFallbackQuery : String :=
  "\n            search index=*" ++
  "\n            | stats count by sourcetype" ++
  "\n            | sort - count" ++
  "\n            "

/-- get_security_metrics, lines 363 to 379: query selection.  The first
branch is taken when metric_type equals alerts or equals all; the trend
branch when it equals threat_trends; the fallback otherwise. -/
def get_security_metrics_query (metric_type : Val) : String :=
  if metric_type.eqStr "alerts" || metric_type.eqStr "all" then
    metricsAlertsQuery
  else if metric_type.eqStr "threat_trends" then
    metricsTrendsQuery
  else
    metricsFallbackQuery

/-- analyze_failed_logins, lines 385 to 390: the compiled query text,
with str(threshold) interpolated. -/
def analyze_failed_logins_query (threshold : Val) : String :=
  "\n        search index=* (failed OR failure OR invalid) (login OR authentication OR logon)" ++
  "\n        | stats count by user, src_ip" ++
  "\n        | where count >= " ++ threshold.pyStr ++
  "\n        | sort - count" ++
  "\n        "

/-- detect_data_exfiltration, lines 396 to 402: the compiled query text,
with str(threshold_mb) interpolated. -/
def detect_data_exfiltration_query (threshold_mb : Val) : String :=
  "\n        search index=* bytes > 0" ++
  "\n        | eval mb = bytes/1024/1024" ++
  "\n        | stats sum(mb) as total_mb by src_ip, dest_ip, user" ++
  "\n        | where total_mb > " ++ threshold_mb.pyStr ++
  "\n        | sort - total_mb" ++
  "\n        "

/-- get_security_alerts, lines 316 to 328: compile the query and delegate
to search_splunk with the caller's time_range and latest time now. -/
def get_security_alerts (b : Backend) (severity time_range lim : Val)
    (fuel : Nat) : SearchRes × List Event :=
  search_splunk b (some (.s (get_security_alerts_query severity lim)))
    time_range (.s "now") fuel

/-- investigate_ip, lines 330 to 338. -/
def investigate_ip (b : Backend) (ip_address : Option Val) (time_range : Val)
    (fuel : Nat) : SearchRes × List Event :=
  search_splunk b (some (.s (investigate_ip_query ip_address)))
    time_range (.s "now") fuel

/-- investigate_user, lines 340 to 348. -/
def investigate_user (b : Backend) (username : Option Val) (time_range : Val)
    (fuel : Nat) : SearchRes × List Event :=
  search_splunk b (some (.s (investigate_user_query username)))
    time_range (.s "now") fuel

/-- get_threat_intel, lines 350 to 359.  The ioc_type parameter is
accepted but unused: the query is the fixed constant. -/
def get_threat_intel (b : Backend) (ioc_type time_range : Val)
    (fuel : Nat) : SearchRes × List Event :=
  search_splunk b (some (.s get_threat_intel_query)) time_range (.s "now") fuel

/-- get_security_metrics, lines 361 to 381. -/
def get_security_metrics (b : Backend) (metric_type time_range : Val)
    (fuel : Nat) : SearchRes × List Event :=
  search_splunk b (some (.s (get_security_metrics_query metric_type)))
    time_range (.s "now") fuel

/-- analyze_failed_logins, lines 383 to 392. -/
def analyze_failed_logins (b : Backend) (threshold time_range : Val)
    (fuel : Nat) : SearchRes × List Event :=
  search_splunk b (some (.s (analyze_failed_logins_query threshold)))
    time_range (.s "now") fuel

/-- detect_data_exfiltration, lines 394 to 404. -/
def detect_data_exfiltration (b : Backend) (threshold_mb time_range : Val)
    (fuel : Nat) : SearchRes × List Event :=
  search_splunk b (some (.s (detect_data_exfiltration_query threshold_mb)))
    time_range (.s "now") fuel

/-- The mutable server state: self.splunk_service, which is None until a
connection succeeds (the session object itself is opaque, Unit here). -/
structure ServerState where
  splunk_service : Option Unit
deriving DecidableEq, Repr

/-- Environment of a run: whether client.connect succeeds (connect_to_splunk
catches its exception and reports failure by returning False), and the
backend oracle behind an established session. -/
structure Env where
  connectOk : Bool
  backend : Backend

/-- connect_to_splunk, lines 26 to 39: attempt client.connect; on success
store the session in self.splunk_service and return True; on exception
return False, leaving the state unchanged. -/
def connect_to_splunk (env : Env) (st : ServerState) :
    Bool × ServerState × List Event :=
  if env.connectOk then (true, ⟨some ()⟩, [.connectAttempt])
  else (false, st, [.connectAttempt])

/-- Line 221: the text returned when no session exists and connection
fails. -/
def connectErrText : String :=
  "Error: Failed to connect to Splunk. Check connection settings."

/-- Line 268: the text assigned to result for an unrecognized tool name. -/
def unknownToolText (name : String) : String := "Unknown tool: " ++ name

/-- Lines 273 to 276: the text produced by the except branch of call_tool
for an exception raised inside the try block. -/
def execErrorText (name e : String) : String :=
  "Error executing " ++ name ++ ": " ++ e

/-- The TextContent text returned by call_tool, kept structured: str() of
a JSON string returned by a tool method, or one of the plain message
texts. -/
inductive Reply
  | payload (out : SplunkOut)
  | message (s : String)
deriving DecidableEq, Repr

/-- Result of one call_tool invocation under the given fuel: a reply, or
the marker that the awaited search job is still being polled. -/
inductive DispatchRes
  | reply (r : Reply)
  | stillRunning
deriving DecidableEq, Repr

/-- Lift a search_splunk result to a dispatch result: a returned JSON
string becomes the str(result) text of the reply. -/
def SearchRes.toDispatch : SearchRes → DispatchRes
  | .returned out => .reply (.payload out)
  | .stillRunning => .stillRunning

/-- The argument map passed to call_tool: a Python dict from parameter
name to value. -/
abbrev Args := List (String × Val)

/-- Python arguments.get(key): the value at the key, or None. -/
def Args.get (args : Args) (key : String) : Option Val :=
  List.lookup key args

/-- Python arguments.get(key, default). -/
def Args.getD (args : Args) (key : String) (dflt : Val) : Val :=
  (args.get key).getD dflt

/-- The try block of call_tool, lines 224 to 270: route on the tool name,
reading each argument with arguments.get and the schema default; the
final else assigns the unknown-tool text.  No branch raises, so the
except branch of call_tool (lines 272 to 276) is unreachable; the state
is not touched. -/
def callToolBody (env : Env) (name : String) (args : Args) (fuel : Nat) :
    DispatchRes × List Event :=
  if name = "search_splunk" then
    let p := search_splunk env.backend (args.get "query")
      (args.getD "earliest_time" (.s "-1h")) (args.getD "latest_time" (.s "now")) fuel
    (p.1.toDispatch, p.2)
  else if name = "get_security_alerts" then
    let p := get_security_alerts env.backend (args.getD "severity" (.s "all"))
      (args.getD "time_range" (.s "-24h")) (args.getD "limit" (.i 50)) fuel
    (p.1.toDispatch, p.2)
  else if name = "investigate_ip" then
    let p := investigate_ip env.backend (args.get "ip_address")
      (args.getD "time_range" (.s "-24h")) fuel
    (p.1.toDispatch, p.2)
  else if name = "investigate_user" then
    let p := investigate_user env.backend (args.get "username")
      (args.getD "time_range" (.s "-24h")) fuel
    (p.1.toDispatch, p.2)
  else if name = "get_threat_intel" then
    let p := get_threat_intel env.backend (args.getD "ioc_type" (.s "all"))
      (args.getD "time_range" (.s "-7d")) fuel
    (p.1.toDispatch, p.2)
  else if name = "get_security_metrics" then
    let p := get_security_metrics env.backend (args.getD "metric_type" (.s "all"))
      (args.getD "time_range" (.s "-24h")) fuel
    (p.1.toDispatch, p.2)
  else if name = "analyze_failed_logins" then
    let p := analyze_failed_logins env.backend (args.getD "threshold" (.i 5))
      (args.getD "time_range" (.s "-1h")) fuel
    (p.1.toDispatch, p.2)
  else if name = "detect_data_exfiltration" then
    let p := detect_data_exfiltration env.backend (args.getD "threshold_mb" (.i 100))
      (args.getD "time_range" (.s "-1h")) fuel
    (p.1.toDispatch, p.2)
  else
    (.reply (.message (unknownToolText name)), [])

/-- call_tool, lines 212 to 276: if self.splunk_service is unset, attempt
connect_to_splunk and on failure return the connectivity error text
without touching any tool; otherwise run the try block. -/
def call_tool (env : Env) (st : ServerState) (name : String) (args : Args)
    (fuel : Nat) : DispatchRes × ServerState × List Event :=
  if st.splunk_service = none then
    match connect_to_splunk env st with
    | (false, st1, tr) => (.reply (.message connectErrText), st1, tr)
    | (true, st1, tr) =>
      let p := callToolBody env name args fuel
      (p.1, st1, tr ++ p.2)
  else
    let p := callToolBody env name args fuel
    (p.1, st, p.2)

/-- Run a sequence of tool calls, threading the server state, and collect
the replies and the combined trace. -/
def runCalls (env : Env) (st : ServerState)
    (calls : List (String × Args × Nat)) :
    List DispatchRes × ServerState × List Event :=
  match calls with
  | [] => ([], st, [])
  | (name, args, fuel) :: rest =>
    let p := call_tool env st name args fuel
    let q := runCalls env p.2.1 rest
    (p.1 :: q.1, q.2.1, p.2.2 ++ q.2.2)

/-- A backend on which every interaction succeeds, the job is done at the
first check, and the parsed payload has no results key. -/
def okBackend : Backend where
  createJob := fun _ _ _ => .ok ()
  isDone := fun _ => .ok true
  fetchRaw := .ok "raw"
  parseJson := fun _ => .ok ⟨none⟩

/-- A backend whose job submission raises an exception with text boom. -/
def raiseCreateBackend : Backend where
  createJob := fun _ _ _ => .error "boom"
  isDone := fun _ => .ok true
  fetchRaw := .ok "raw"
  parseJson := fun _ => .ok ⟨none⟩

/-- A backend whose job never reports done and never raises. -/
def neverDoneBackend : Backend where
  createJob := fun _ _ _ => .ok ()
  isDone := fun _ => .ok false
  fetchRaw := .ok "raw"
  parseJson := fun _ => .ok ⟨none⟩

lemma pollLoop_sleep_mem (b : Backend) :
    ∀ (fuel k : Nat) (d : ℚ),
      Event.sleep d ∈ (pollLoop b fuel k).2 → d = pollInterval := by
  intro fuel
  induction fuel with
  | zero => intro k d h; simp [pollLoop] at h
  | succ n ih =>
    intro k d h
    cases hb : b.isDone k with
    | error e => simp [pollLoop, hb] at h
    | ok v =>
      cases v with
      | true => simp [pollLoop, hb] at h
      | false =>
        simp [pollLoop, hb] at h
        rcases h with h | h
        · exact h
        · exact ih (k + 1) d h

lemma pollLoop_fetch_not_mem (b : Backend) :
    ∀ (fuel k : Nat), Event.fetch ∉ (pollLoop b fuel k).2 := by
  intro fuel
  induction fuel with
  | zero => intro k h; simp [pollLoop] at h
  | succ n ih =>
    intro k h
    cases hb : b.isDone k with
    | error e => simp [pollLoop, hb] at h
    | ok v =>
      cases v with
      | true => simp [pollLoop, hb] at h
      | false =>
        simp [pollLoop, hb] at h
        exact ih (k + 1) h

lemma pollLoop_done_isDone (b : Backend) :
    ∀ (fuel k j : Nat), (pollLoop b fuel k).1 = .done j →
      b.isDone j = .ok true := by
  intro fuel
  induction fuel with
  | zero => intro k j h; simp [pollLoop] at h
  | succ n ih =>
    intro k j h
    cases hb : b.isDone k with
    | error e => simp [pollLoop, hb] at h
    | ok v =>
      cases v with
      | true =>
        simp [pollLoop, hb] at h
        subst h; exact hb
      | false =>
        simp [pollLoop, hb] at h
        exact ih (k + 1) j h

lemma pollLoop_never_done (b : Backend) (h : ∀ j, b.isDone j = .ok false) :
    ∀ (fuel k : Nat), (pollLoop b fuel k).1 = .stillRunning := by
  intro fuel
  induction fuel with
  | zero => intro k; rfl
  | succ n ih => intro k; simp [pollLoop, h k]; exact ih (k + 1)

/-- The trace of the try block of search_splunk always starts with the
job submission. -/
lemma searchSplunkBody_trace_head (b : Backend) (q : Option Val)
    (e l : Val) (fuel : Nat) :
    ∃ tr, (searchSplunkBody b q e l fuel).2 = Event.jobCreate q e l :: tr := by
  cases hc : b.createJob q e l with
  | error msg => exact ⟨[], by simp [searchSplunkBody, hc]⟩
  | ok u =>
    rcases hpl : pollLoop b fuel 0 with ⟨pr, ptr⟩
    cases pr with
    | raised msg => exact ⟨ptr, by simp [searchSplunkBody, hc, hpl]⟩
    | stillRunning => exact ⟨ptr, by simp [searchSplunkBody, hc, hpl]⟩
    | done j =>
      cases hf : b.fetchRaw with
      | error msg =>
        exact ⟨ptr ++ [.fetch], by simp [searchSplunkBody, hc, hpl, hf]⟩
      | ok raw =>
        cases hp : b.parseJson raw with
        | error msg =>
          exact ⟨ptr ++ [.fetch], by simp [searchSplunkBody, hc, hpl, hf, hp]⟩
        | ok pp =>
          exact ⟨ptr ++ [.fetch], by simp [searchSplunkBody, hc, hpl, hf, hp]⟩

/-- search_splunk returns the trace of its try block unchanged. -/
lemma search_splunk_trace (b : Backend) (q : Option Val) (e l : Val)
    (fuel : Nat) :
    (search_splunk b q e l fuel).2 = (searchSplunkBody b q e l fuel).2 := by
  rcases hb : searchSplunkBody b q e l fuel with ⟨r, tr⟩
  cases r <;> simp [search_splunk, hb]

/-- Every sleep in the trace of the try block has the fixed duration. -/
lemma searchSplunkBody_sleep_mem (b : Backend) (q : Option Val) (e l : Val)
    (fuel : Nat) (d : ℚ)
    (h : Event.sleep d ∈ (searchSplunkBody b q e l fuel).2) :
    d = pollInterval := by
  cases hc : b.createJob q e l with
  | error msg => simp [searchSplunkBody, hc] at h
  | ok u =>
    rcases hpl : pollLoop b fuel 0 with ⟨pr, ptr⟩
    have hptr : Event.sleep d ∈ ptr → d = pollInterval := by
      intro hm
      have := pollLoop_sleep_mem b fuel 0 d
      rw [hpl] at this
      exact this hm
    cases pr with
    | raised msg =>
      simp [searchSplunkBody, hc, hpl] at h
      exact hptr h
    | stillRunning =>
      simp [searchSplunkBody, hc, hpl] at h
      exact hptr h
    | done j =>
      cases hf : b.fetchRaw with
      | error msg =>
        simp [searchSplunkBody, hc, hpl, hf] at h
        exact hptr h
      | ok raw =>
        cases hp : b.parseJson raw with
        | error msg =>
          simp [searchSplunkBody, hc, hpl, hf, hp] at h
          exact hptr h
        | ok pp =>
          simp [searchSplunkBody, hc, hpl, hf, hp] at h
          exact hptr h

/-- A fetch appears in the trace of the try block only when some check of
job.is_done() returned True. -/
lemma searchSplunkBody_fetch_done (b : Backend) (q : Option Val) (e l : Val)
    (fuel : Nat)
    (h : Event.fetch ∈ (searchSplunkBody b q e l fuel).2) :
    ∃ k, b.isDone k = .ok true := by
  cases hc : b.createJob q e l with
  | error msg => simp [searchSplunkBody, hc] at h
  | ok u =>
    rcases hpl : pollLoop b fuel 0 with ⟨pr, ptr⟩
    have hptr : Event.fetch ∉ ptr := by
      have := pollLoop_fetch_not_mem b fuel 0
      rw [hpl] at this
      exact this
    cases pr with
    | raised msg =>
      simp [searchSplunkBody, hc, hpl] at h
      exact absurd h hptr
    | stillRunning =>
      simp [searchSplunkBody, hc, hpl] at h
      exact absurd h hptr
    | done j =>
      refine ⟨j, ?_⟩
      have := pollLoop_done_isDone b fuel 0 j
      rw [hpl] at this
      exact this rfl

/-- Claim C2: for every successful response envelope produced from a
parsed backend payload, event_count is the non-negative total number of
parsed result rows before truncation, and the results list has length
min(event_count, 20). -/
theorem claim_C2_envelope_invariant (q : Option Val) (e l : Val)
    (rs : List Row) (h : rs ≠ []) :
    formatResults q e l ⟨some rs⟩ =
      .envelope q rs.length (e.pyStr ++ " to " ++ l.pyStr) (rs.take 20)
    ∧ (rs.take 20).length = min rs.length 20
    ∧ (0 : ℤ) ≤ (rs.length : ℤ) := by
  refine ⟨?_, ?_, ?_⟩
  · simp [formatResults, List.isEmpty_iff, h]
  · simp [List.length_take, Nat.min_comm]
  · exact Int.ofNat_nonneg _

/-- Witness for C2 at a one-row payload. -/
theorem claim_C2_envelope_invariant_witness :
    formatResults none (Val.s "-1h") (Val.s "now") ⟨some [[("a", "b")]]⟩ =
      SplunkOut.envelope none 1
        ((Val.s "-1h").pyStr ++ " to " ++ (Val.s "now").pyStr)
        ([[("a", "b")]].take 20) :=
  (claim_C2_envelope_invariant none (Val.s "-1h") (Val.s "now") [[("a", "b")]]
    (by simp)).1

/-- Counterexample to claim C4 as stated: the explicit value all does not
fall through to the source-type fallback branch; it selects the same
severity-count query as alerts, and that query differs from the
fallback query. -/
theorem claim_C4_counterexample :
    get_security_metrics_query (Val.s "all") = metricsAlertsQuery
    ∧ (get_security_metrics_query (Val.s "all") == metricsFallbackQuery)
        = false :=
  ⟨rfl, by decide⟩

/-- Claim C4 (amended): the security-metrics query is the severity-count
aggregation for alerts and also for the explicit value all; the
1-hour-bucketed trend for threat_trends; and the source-type fallback
for every other value. -/
theorem claim_C4_amended :
    get_security_metrics_query (Val.s "alerts") = metricsAlertsQuery
    ∧ get_security_metrics_query (Val.s "all") = metricsAlertsQuery
    ∧ get_security_metrics_query (Val.s "threat_trends") = metricsTrendsQuery
    ∧ ∀ m : Val, m.eqStr "alerts" = false → m.eqStr "all" = false →
        m.eqStr "threat_trends" = false →
        get_security_metrics_query m = metricsFallbackQuery := by
  refine ⟨rfl, rfl, rfl, ?_⟩
  intro m h1 h2 h3
  simp [get_security_metrics_query, h1, h2, h3]

/-- Witness for the amended C4 at the unhandled enumeration value
incidents. -/
theorem claim_C4_amended_witness :
    get_security_metrics_query (Val.s "incidents") = metricsFallbackQuery :=
  claim_C4_amended.2.2.2 (Val.s "incidents") rfl rfl rfl

/-- Claim C6: the ioc_type argument has no influence on the threat-intel
tool: any two values yield identical behaviour (same compiled query,
same submitted job, same trace), and the compiled query is the fixed
constant. -/
theorem claim_C6_ioc_type_noninterference (b : Backend)
    (t1 t2 time_range : Val) (fuel : Nat) :
    get_threat_intel b t1 time_range fuel = get_threat_intel b t2 time_range fuel
    ∧ get_threat_intel b t1 time_range fuel =
        search_splunk b (some (.s get_threat_intel_query)) time_range
          (.s "now") fuel :=
  ⟨rfl, rfl⟩

/-- Claim C8: a parsed payload with zero results or no results key yields
the object with the echoed query, event_count 0 and the message
No results found; stated both on the formatting step and end to end
through search_splunk. -/
theorem claim_C8_no_results (q : Option Val) (e l : Val) :
    (∀ pp : ParsedPayload, pp.results = none ∨ pp.results = some [] →
      formatResults q e l pp = .noResults q 0 "No results found")
    ∧ (∀ (b : Backend) (raw : String) (fuel : Nat),
        b.createJob q e l = .ok () → b.isDone 0 = .ok true →
        b.fetchRaw = .ok raw → b.parseJson raw = .ok ⟨none⟩ →
        (search_splunk b q e l (fuel + 1)).1 =
          .returned (.noResults q 0 "No results found")) := by
  constructor
  · intro pp h
    rcases h with h | h <;> simp [formatResults, h]
  · intro b raw fuel hc hd hf hp
    simp [search_splunk, searchSplunkBody, pollLoop, hc, hd, hf, hp,
      formatResults]

/-- Witness for C8: a backend whose payload has no results key yields the
no-results object. -/
theorem claim_C8_no_results_witness :
    (search_splunk okBackend none (Val.s "-1h") (Val.s "now") 1).1 =
      SearchRes.returned (SplunkOut.noResults none 0 "No results found") :=
  (claim_C8_no_results none (Val.s "-1h") (Val.s "now")).2 okBackend "raw" 0
    rfl rfl rfl rfl

/-- Counterexample to claim C7 as stated: the unknown-tool text is
Unknown tool: with a capital U, not the claimed lowercase text; and when
no session exists and connection fails, dispatching an unknown tool name
returns the connectivity error, not an unknown-tool payload. -/
theorem claim_C7_counterexample :
    (unknownToolText "bogus" == "unknown tool: bogus") = false
    ∧ call_tool ⟨false, okBackend⟩ ⟨none⟩ "bogus" [] 1 =
        (.reply (.message connectErrText), ⟨none⟩, [.connectAttempt])
    ∧ (connectErrText == unknownToolText "bogus") = false :=
  ⟨by decide, rfl, by decide⟩

/-- Claim C7 (amended): when a session exists, dispatching a tool name
outside the registry returns the local text Unknown tool: followed by
the name, with unchanged state and an empty backend trace (no job
submitted), and it is a returned value, never an exception. -/
theorem claim_C7_amended (c : Bool) (b : Backend) (name : String)
    (args : Args) (fuel : Nat)
    (h1 : name ≠ "search_splunk") (h2 : name ≠ "get_security_alerts")
    (h3 : name ≠ "investigate_ip") (h4 : name ≠ "investigate_user")
    (h5 : name ≠ "get_threat_intel") (h6 : name ≠ "get_security_metrics")
    (h7 : name ≠ "analyze_failed_logins")
    (h8 : name ≠ "detect_data_exfiltration") :
    call_tool ⟨c, b⟩ ⟨some ()⟩ name args fuel =
      (.reply (.message ("Unknown tool: " ++ name)), ⟨some ()⟩, []) := by
  simp [call_tool, callToolBody, h1, h2, h3, h4, h5, h6, h7, h8,
    unknownToolText]

/-- Witness for the amended C7 at the name bogus. -/
theorem claim_C7_amended_witness :
    call_tool ⟨true, okBackend⟩ ⟨some ()⟩ "bogus" [] 1 =
      (.reply (.message ("Unknown tool: " ++ "bogus")), ⟨some ()⟩, []) :=
  claim_C7_amended true okBackend "bogus" [] 1 (by decide) (by decide)
    (by decide) (by decide) (by decide) (by decide) (by decide) (by decide)

/-- Claim C5: the job executor checks completion repeatedly at the fixed
interval 0.5 (every sleep in the trace has duration 1/2); results are
fetched only after some check of job.is_done() reported done; and the
loop has no timeout: on a backend that never reports done and never
raises, no amount of fuel makes search_splunk return. -/
theorem claim_C5_poll_loop (b : Backend) (q : Option Val) (e l : Val) :
    (∀ (fuel : Nat) (d : ℚ),
      Event.sleep d ∈ (search_splunk b q e l fuel).2 → d = 1/2)
    ∧ (∀ fuel : Nat, Event.fetch ∈ (search_splunk b q e l fuel).2 →
        ∃ k, b.isDone k = .ok true)
    ∧ (b.createJob q e l = .ok () → (∀ k, b.isDone k = .ok false) →
        ∀ fuel : Nat, (search_splunk b q e l fuel).1 = .stillRunning) := by
  refine ⟨?_, ?_, ?_⟩
  · intro fuel d h
    rw [search_splunk_trace] at h
    have hd := searchSplunkBody_sleep_mem b q e l fuel d h
    simpa [pollInterval] using hd
  · intro fuel h
    rw [search_splunk_trace] at h
    exact searchSplunkBody_fetch_done b q e l fuel h
  · intro hc hnever fuel
    have hpl := pollLoop_never_done b hnever fuel 0
    have hbody : (searchSplunkBody b q e l fuel).1 = .stillRunning := by
      rcases hp : pollLoop b fuel 0 with ⟨pr, ptr⟩
      rw [hp] at hpl
      simp at hpl
      subst hpl
      simp [searchSplunkBody, hc, hp]
    rcases hb2 : searchSplunkBody b q e l fuel with ⟨r, tr⟩
    rw [hb2] at hbody
    simp at hbody
    subst hbody
    simp [search_splunk, hb2]

/-- Witness for C5: on the never-done backend the executor is still
running after any number of polls (here three). -/
theorem claim_C5_poll_loop_witness :
    (search_splunk neverDoneBackend none (Val.s "-1h") (Val.s "now") 3).1 =
      SearchRes.stillRunning :=
  (claim_C5_poll_loop neverDoneBackend none (Val.s "-1h") (Val.s "now")).2.2
    rfl (fun _ => rfl) 3

/-- Claim C10: search_splunk is total — an exception raised by any stage
(job creation, completion polling, result fetching, payload parsing) is
raised out of the try block and caught by search_splunk itself, which
returns the error object with str(e); a formatted value is returned
unchanged. -/
theorem claim_C10_search_total (b : Backend) (q : Option Val) (e l : Val)
    (fuel : Nat) (msg : String) :
    (b.createJob q e l = .error msg →
      (searchSplunkBody b q e l fuel).1 = .raised msg)
    ∧ (b.createJob q e l = .ok () → (pollLoop b fuel 0).1 = .raised msg →
        (searchSplunkBody b q e l fuel).1 = .raised msg)
    ∧ (∀ j : Nat, b.createJob q e l = .ok () →
        (pollLoop b fuel 0).1 = .done j → b.fetchRaw = .error msg →
        (searchSplunkBody b q e l fuel).1 = .raised msg)
    ∧ (∀ (j : Nat) (raw : String), b.createJob q e l = .ok () →
        (pollLoop b fuel 0).1 = .done j → b.fetchRaw = .ok raw →
        b.parseJson raw = .error msg →
        (searchSplunkBody b q e l fuel).1 = .raised msg)
    ∧ ((searchSplunkBody b q e l fuel).1 = .raised msg →
        (search_splunk b q e l fuel).1 = .returned (.errorPayload msg))
    ∧ (∀ out : SplunkOut, (searchSplunkBody b q e l fuel).1 = .value out →
        (search_splunk b q e l fuel).1 = .returned out) := by
  refine ⟨?_, ?_, ?_, ?_, ?_, ?_⟩
  · intro hc
    simp [searchSplunkBody, hc]
  · intro hc hp1
    rcases hp : pollLoop b fuel 0 with ⟨pr, ptr⟩
    rw [hp] at hp1
    simp at hp1
    subst hp1
    simp [searchSplunkBody, hc, hp]
  · intro j hc hp1 hf
    rcases hp : pollLoop b fuel 0 with ⟨pr, ptr⟩
    rw [hp] at hp1
    simp at hp1
    subst hp1
    simp [searchSplunkBody, hc, hp, hf]
  · intro j raw hc hp1 hf hpj
    rcases hp : pollLoop b fuel 0 with ⟨pr, ptr⟩
    rw [hp] at hp1
    simp at hp1
    subst hp1
    simp [searchSplunkBody, hc, hp, hf, hpj]
  · intro hb
    rcases hb2 : searchSplunkBody b q e l fuel with ⟨r, tr⟩
    rw [hb2] at hb
    simp at hb
    subst hb
    simp [search_splunk, hb2]
  · intro out hb
    rcases hb2 : searchSplunkBody b q e l fuel with ⟨r, tr⟩
    rw [hb2] at hb
    subst hb
    simp [search_splunk, hb2]

/-- Witness for C10: a raising job submission is returned as the error
object with its exception text. -/
theorem claim_C10_search_total_witness :
    (search_splunk raiseCreateBackend none (Val.s "-1h") (Val.s "now") 1).1 =
      SearchRes.returned (SplunkOut.errorPayload "boom") :=
  (claim_C10_search_total raiseCreateBackend none (Val.s "-1h") (Val.s "now")
      1 "boom").2.2.2.2.1
    ((claim_C10_search_total raiseCreateBackend none (Val.s "-1h")
      (Val.s "now") 1 "boom").1 rfl)

/-- Counterexample to claim C3 as stated: for a backend whose job
submission raises boom, the exception does not cross the job-execution
layer unconverted — search_splunk itself returns the converted error
object, and the dispatcher hands that payload through; the dispatcher's
own catch produces the distinct Error executing text, so the conversion
to the error object does not happen at the dispatcher boundary. -/
theorem claim_C3_counterexample :
    (searchSplunkBody raiseCreateBackend (some (Val.s "q")) (Val.s "-1h")
        (Val.s "now") 1).1 = BodyRes.raised "boom"
    ∧ (search_splunk raiseCreateBackend (some (Val.s "q")) (Val.s "-1h")
        (Val.s "now") 1).1 =
        SearchRes.returned (SplunkOut.errorPayload "boom")
    ∧ (call_tool ⟨true, raiseCreateBackend⟩ ⟨some ()⟩ "search_splunk"
        [("query", Val.s "q")] 1).1 =
        DispatchRes.reply (Reply.payload (SplunkOut.errorPayload "boom"))
    ∧ decide (DispatchRes.reply (Reply.payload (SplunkOut.errorPayload
          "boom")) =
        DispatchRes.reply
          (Reply.message (execErrorText "search_splunk" "boom"))) = false :=
  ⟨rfl, rfl, rfl, by decide⟩

/-- Claim C3 (amended): an exception raised during job submission,
polling, fetching or parsing propagates unchanged through the try block
of search_splunk and is caught inside search_splunk itself, which
converts it to the error object with str(e); the dispatcher then returns
that payload as the reply, and its own catch (whose format is the
Error executing text) plays no part. -/
theorem claim_C3_amended (b : Backend) (c : Bool) (args : Args) (fuel : Nat)
    (msg : String)
    (h : (searchSplunkBody b (args.get "query")
      (args.getD "earliest_time" (.s "-1h"))
      (args.getD "latest_time" (.s "now")) fuel).1 = .raised msg) :
    (search_splunk b (args.get "query")
        (args.getD "earliest_time" (.s "-1h"))
        (args.getD "latest_time" (.s "now")) fuel).1 =
      .returned (.errorPayload msg)
    ∧ (call_tool ⟨c, b⟩ ⟨some ()⟩ "search_splunk" args fuel).1 =
        .reply (.payload (.errorPayload msg)) := by
  have hs : (search_splunk b (args.get "query")
      (args.getD "earliest_time" (.s "-1h"))
      (args.getD "latest_time" (.s "now")) fuel).1 =
      .returned (.errorPayload msg) := by
    rcases hb2 : searchSplunkBody b (args.get "query")
      (args.getD "earliest_time" (.s "-1h"))
      (args.getD "latest_time" (.s "now")) fuel with ⟨r, tr⟩
    rw [hb2] at h
    simp at h
    subst h
    simp [search_splunk, hb2]
  refine ⟨hs, ?_⟩
  simp [call_tool, callToolBody, SearchRes.toDispatch, hs]

/-- Witness for the amended C3 on the raising backend. -/
theorem claim_C3_amended_witness :
    (call_tool ⟨true, raiseCreateBackend⟩ ⟨some ()⟩ "search_splunk"
        [("query", Val.s "q")] 1).1 =
      DispatchRes.reply (Reply.payload (SplunkOut.errorPayload "boom")) :=
  (claim_C3_amended raiseCreateBackend true [("query", Val.s "q")] 1 "boom"
    rfl).2

/-- Counterexample to claim C1 as stated: dispatching search_splunk with
the required query argument absent from the argument map submits a job
(the trace holds a jobCreate with query None) and returns the backend's
result, not an error payload naming the missing parameter. -/
theorem claim_C1_counterexample :
    call_tool ⟨true, okBackend⟩ ⟨some ()⟩ "search_splunk" [] 1 =
      (.reply (.payload (.noResults none 0 "No results found")), ⟨some ()⟩,
        [.jobCreate none (.s "-1h") (.s "now"), .doneCheck 0, .fetch]) := rfl

/-- Claim C1 (amended): dispatching a tool whose required argument is
absent performs no validation: the None value is forwarded, and the job
executor is always invoked — for search_splunk the submitted job carries
query None, and for investigate_ip and investigate_user the submitted
query interpolates the text None. -/
theorem claim_C1_amended (c : Bool) (b : Backend) (fuel : Nat) :
    (∃ tr, (call_tool ⟨c, b⟩ ⟨some ()⟩ "search_splunk" [] fuel).2.2 =
        Event.jobCreate none (Val.s "-1h") (Val.s "now") :: tr)
    ∧ (∃ tr, (call_tool ⟨c, b⟩ ⟨some ()⟩ "investigate_ip" [] fuel).2.2 =
        Event.jobCreate (some (Val.s (investigate_ip_query none)))
          (Val.s "-24h") (Val.s "now") :: tr)
    ∧ (∃ tr, (call_tool ⟨c, b⟩ ⟨some ()⟩ "investigate_user" [] fuel).2.2 =
        Event.jobCreate (some (Val.s (investigate_user_query none)))
          (Val.s "-24h") (Val.s "now") :: tr) := by
  refine ⟨?_, ?_, ?_⟩
  · rcases searchSplunkBody_trace_head b none (Val.s "-1h") (Val.s "now") fuel
      with ⟨tr, htr⟩
    refine ⟨tr, ?_⟩
    simpa [call_tool, callToolBody, Args.get, Args.getD, List.lookup,
      search_splunk_trace] using htr
  · rcases searchSplunkBody_trace_head b
      (some (Val.s (investigate_ip_query none))) (Val.s "-24h") (Val.s "now")
      fuel with ⟨tr, htr⟩
    refine ⟨tr, ?_⟩
    simpa [call_tool, callToolBody, investigate_ip, Args.get, Args.getD,
      List.lookup, search_splunk_trace] using htr
  · rcases searchSplunkBody_trace_head b
      (some (Val.s (investigate_user_query none))) (Val.s "-24h") (Val.s "now")
      fuel with ⟨tr, htr⟩
    refine ⟨tr, ?_⟩
    simpa [call_tool, callToolBody, investigate_user, Args.get, Args.getD,
      List.lookup, search_splunk_trace] using htr

/-- Under a persistently failing connection and no session, every call in
a run returns the connectivity error, attempts exactly one connection,
submits nothing, and leaves the session unset. -/
lemma runCalls_persistent_failure (b : Backend)
    (calls : List (String × Args × Nat)) :
    runCalls ⟨false, b⟩ ⟨none⟩ calls =
      (List.replicate calls.length
          (.reply (.message connectErrText)), ⟨none⟩,
        List.replicate calls.length Event.connectAttempt) := by
  induction calls with
  | nil => rfl
  | cons hd tl ih =>
    rcases hd with ⟨n, a, f⟩
    simp [runCalls, call_tool, connect_to_splunk, ih, List.replicate_succ]

/-- Claim C9: with no session and failing session creation, the
dispatcher returns the connectivity error text as a value (connect
reports failure by returning False), with no query compiled or
submitted (the trace is just the connection attempt) and the session
left unset; every call of a run under persistent connection failure
returns that same error; and once a connection attempt succeeds the
session is established for the call. -/
theorem claim_C9_connectivity (b : Backend) (name : String) (args : Args)
    (fuel : Nat) (calls : List (String × Args × Nat)) :
    connect_to_splunk ⟨false, b⟩ ⟨none⟩ = (false, ⟨none⟩, [.connectAttempt])
    ∧ call_tool ⟨false, b⟩ ⟨none⟩ name args fuel =
        (.reply (.message connectErrText), ⟨none⟩, [.connectAttempt])
    ∧ (runCalls ⟨false, b⟩ ⟨none⟩ calls).1 =
        List.replicate calls.length (.reply (.message connectErrText))
    ∧ (runCalls ⟨false, b⟩ ⟨none⟩ calls).2.2 =
        List.replicate calls.length Event.connectAttempt
    ∧ (runCalls ⟨false, b⟩ ⟨none⟩ calls).2.1 = ⟨none⟩
    ∧ ∀ b2 : Backend,
        (call_tool ⟨true, b2⟩ ⟨none⟩ name args fuel).2.1 = ⟨some ()⟩ := by
  refine ⟨rfl, rfl, ?_, ?_, ?_, ?_⟩
  · rw [runCalls_persistent_failure]
  · rw [runCalls_persistent_failure]
  · rw [runCalls_persistent_failure]
  · intro b2
    simp [call_tool, connect_to_splunk]
